import Mathlib

/-
Shallow embedding of the resolution-and-extraction core of kubectl-getinfo:

  * resources.go   — getGVR (resource type resolution over a discovery catalog)
  * extractors.go  — getPodSpecPath, extractSchedulingInfo,
                     extractSchedulingSubcommand
  * types.go       — SchedulingInfo, OutputItem, ContainerResources

Retrieved Kubernetes objects are generic JSON-like trees
(map[string]interface{} in Go); we model them with the inductive `Value`
below.  Go maps are modelled as association lists: `lookupKey` is map
lookup, `setKey` is map assignment (replace an existing key in place,
otherwise append).  Go map iteration order is unspecified; the embedding
determinizes it to list order, which is observation-equivalent for every
property proved here (no proof depends on a particular iteration order of
two distinct keys).  `strings.ToLower` is modelled by `strToLower`,
which agrees with Go on ASCII (all Kubernetes resource identifiers are
ASCII).
-/

namespace GetInfo

/-- Generic document tree: the embedding of Go's `interface{}` values as
produced by the Kubernetes unstructured JSON decoder (null, bool, int64,
string, []interface{}, map[string]interface{}). -/
inductive Value where
  | null
  | bool (b : Bool)
  | int (n : Int)
  | str (s : String)
  | arr (elems : List Value)
  | obj (fields : List (String × Value))

/-- Map lookup on an association list (Go `m[k]` read). -/
def lookupKey : List (String × Value) → String → Option Value
  | [], _ => none
  | (k2, v) :: rest, k => if k2 == k then some v else lookupKey rest k

/-- Map assignment on an association list (Go `m[k] = v`): replace the
binding in place if the key exists, otherwise add a new binding. -/
def setKey : List (String × Value) → String → Value → List (String × Value)
  | [], k, v => [(k, v)]
  | (k2, v2) :: rest, k, v =>
    if k2 == k then (k2, v) :: rest else (k2, v2) :: setKey rest k v

/-- Embedding of `unstructured.NestedFieldNoCopy`: walk a path of keys;
every intermediate node must be a mapping, otherwise the field is not
found. -/
def nestedField (v : Value) : List String → Option Value
  | [] => some v
  | f :: rest =>
    match v with
    | .obj fields =>
      match lookupKey fields f with
      | some v2 => nestedField v2 rest
      | none => none
    | _ => none

/-- Embedding of `unstructured.NestedString`: the value must be a string,
otherwise it counts as not found. -/
def nestedString (v : Value) (path : List String) : Option String :=
  match nestedField v path with
  | some (.str s) => some s
  | _ => none

/-- Embedding of `unstructured.NestedBool`. -/
def nestedBool (v : Value) (path : List String) : Option Bool :=
  match nestedField v path with
  | some (.bool b) => some b
  | _ => none

/-- Embedding of `unstructured.NestedInt64`. -/
def nestedInt64 (v : Value) (path : List String) : Option Int :=
  match nestedField v path with
  | some (.int n) => some n
  | _ => none

/-- Embedding of `unstructured.NestedSlice`. -/
def nestedSlice (v : Value) (path : List String) : Option (List Value) :=
  match nestedField v path with
  | some (.arr elems) => some elems
  | _ => none

/-- Embedding of `unstructured.NestedMap`. -/
def nestedMap (v : Value) (path : List String) : Option (List (String × Value)) :=
  match nestedField v path with
  | some (.obj fields) => some fields
  | _ => none

/-- Helper for `NestedStringMap`: every value of the mapping must be a
string, otherwise the whole mapping counts as not found. -/
def allStringValues : List (String × Value) → Option (List (String × String))
  | [] => some []
  | (k, .str s) :: rest =>
    match allStringValues rest with
    | some tail => some ((k, s) :: tail)
    | none => none
  | _ => none

/-- Embedding of `unstructured.NestedStringMap`. -/
def nestedStringMap (v : Value) (path : List String) : Option (List (String × String)) :=
  match nestedField v path with
  | some (.obj fields) => allStringValues fields
  | _ => none

/-- Embedding of `Unstructured.GetKind`: the top-level "kind" string, or
"" when absent or not a string. -/
def getKind (doc : Value) : String :=
  (nestedString doc ["kind"]).getD ""

/-
Resolver (resources.go, getGVR).  A discovery catalog entry is an
`APIResource` inside an `APIResourceList` (one list per group/version);
the discovery call returns a possibly-nil slice of possibly-nil list
pointers together with a possibly-partial error, modelled by the
`discoveryFailed` flag plus an `Option` around the slice.
-/

/-- One advertised resource type (metav1.APIResource, the fields getGVR
reads). -/
structure APIResource where
  name : String
  kind : String
  shortNames : List String
  namespaced : Bool
deriving DecidableEq, Repr

/-- One group/version worth of discovery results
(metav1.APIResourceList). -/
structure APIResourceList where
  groupVersion : String
  apiResources : List APIResource
deriving DecidableEq, Repr

/-- Resolved coordinate (schema.GroupVersionResource). -/
structure GroupVersionResource where
  group : String
  version : String
  resource : String
deriving DecidableEq, Repr

/-- Parsed "group/version" string (schema.GroupVersion). -/
structure GroupVersion where
  group : String
  version : String
deriving DecidableEq, Repr

/-- Embedding of `strings.ToLower`, written over the character list so
that it evaluates inside the kernel; it agrees with Go on the ASCII
identifiers the catalog holds. -/
def strToLower (s : String) : String :=
  String.mk (s.data.map Char.toLower)

/-- Embedding of `strings.Contains(s, c)` for a single-character
separator, written over the character list. -/
def containsChar (s : String) (c : Char) : Bool :=
  s.data.contains c

/-- Embedding of `schema.ParseGroupVersion`: "" and "/" parse to the empty
group/version; no slash means a bare version; one slash splits group from
version at its first occurrence; more than one slash is an error. -/
def parseGroupVersion (gv : String) : Option GroupVersion :=
  if gv == "" || gv == "/" then some ⟨"", ""⟩
  else
    match gv.data.countP (fun c => c == '/') with
    | 0 => some ⟨"", gv⟩
    | 1 =>
      some ⟨String.mk (gv.data.takeWhile (fun c => !(c == '/'))),
            String.mk ((gv.data.dropWhile (fun c => !(c == '/'))).drop 1)⟩
    | _ => none

/-- Errors getGVR can signal. -/
inductive ResolveError where
  | catalogUnavailable
  | notFound (resourceType : String)
deriving DecidableEq, Repr

/-- Match test of getGVR for one catalog entry (resources.go lines
55-68): the already-lowercased input equals the lowercased plural name,
the lowercased kind, or one of the lowercased short names. -/
def matchesResource (inputLower : String) (r : APIResource) : Bool :=
  strToLower r.name == inputLower || strToLower r.kind == inputLower
    || r.shortNames.any (fun sn => strToLower sn == inputLower)

/-- Inner scan of getGVR over the resources of one APIResourceList:
skip sub-resources (names containing "/"); on a match, parse the list's
groupVersion, skipping the entry if parsing fails. -/
def findInResources (inputLower : String) (gvs : String) :
    List APIResource → Option (GroupVersionResource × Bool)
  | [] => none
  | r :: rest =>
    if containsChar r.name '/' then findInResources inputLower gvs rest
    else if matchesResource inputLower r then
      match parseGroupVersion gvs with
      | some gv => some (⟨gv.group, gv.version, r.name⟩, r.namespaced)
      | none => findInResources inputLower gvs rest
    else findInResources inputLower gvs rest

/-- Outer scan of getGVR over the discovery lists, skipping nil list
pointers. -/
def findInLists (inputLower : String) :
    List (Option APIResourceList) → Option (GroupVersionResource × Bool)
  | [] => none
  | none :: rest => findInLists inputLower rest
  | some l :: rest =>
    match findInResources inputLower l.groupVersion l.apiResources with
    | some res => some res
    | none => findInLists inputLower rest

/-- Embedding of `getGVR` (resources.go lines 19-89).  `discoveryFailed`
models a non-nil error from ServerGroupsAndResources; the function fails
with `catalogUnavailable` only when discovery both errored and returned
no lists at all, otherwise it scans whatever lists were returned (a nil
slice scans as empty) and falls through to `notFound`. -/
def getGVR (resourceType : String) (discoveryFailed : Bool)
    (apiResourceLists : Option (List (Option APIResourceList))) :
    Except ResolveError (GroupVersionResource × Bool) :=
  if discoveryFailed && apiResourceLists.isNone then
    .error .catalogUnavailable
  else
    match findInLists (strToLower resourceType) (apiResourceLists.getD []) with
    | some res => .ok res
    | none => .error (.notFound resourceType)

/-
Extractor (extractors.go, types.go).
-/

/-- Kinds whose pod spec sits under spec.template.spec
(extractors.go lines 18-21). -/
def templateKinds : List String :=
  ["Deployment", "StatefulSet", "DaemonSet", "ReplicaSet", "Job", "CronJob"]

/-- Kind-to-path dispatch of `getPodSpecPath` (extractors.go lines 8-31),
factored over the kind string. -/
def podSpecPathForKind (kind : String) : List String :=
  if kind == "Pod" then ["spec"]
  else if templateKinds.contains kind then ["spec", "template", "spec"]
  else ["spec"]

/-- Embedding of `getPodSpecPath`: reads the document's kind and
dispatches. -/
def getPodSpecPath (doc : Value) : List String :=
  podSpecPathForKind (getKind doc)

/-- Embedding of Go's `int32(x)` conversion applied to an int64 value
(extractors.go line 169): two's-complement truncation to 32 bits. -/
def toInt32 (n : Int) : Int :=
  (n + 2 ^ 31) % 2 ^ 32 - 2 ^ 31

/-- Embedding of the `SchedulingInfo` struct (types.go lines 18-34).
Nil-able Go fields (maps, the *int32 pointer) become `Option`; slices
keep Go's conflation of nil and empty (both have length 0); strings and
booleans keep their Go zero values as defaults. -/
structure SchedulingInfo where
  nodeSelector : Option (List (String × String)) := none
  nodeName : String := ""
  affinity : Option (List (String × Value)) := none
  tolerations : List Value := []
  topologySpreadConstraints : List Value := []
  resourceRequests : Option (List (String × Value)) := none
  resourceLimits : Option (List (String × Value)) := none
  schedulerName : String := ""
  priorityClassName : String := ""
  priority : Option Int := none
  preemptionPolicy : String := ""
  runtimeClassName : String := ""
  hostNetwork : Bool := false
  hostPID : Bool := false
  hostIPC : Bool := false

/-- The requests (or limits) mapping of one container entry: the entry
must be a mapping holding a "resources" mapping holding a `key` mapping
(the chain of type assertions in extractors.go lines 112-118/133). -/
def containerResourceMap (c : Value) (key : String) : Option (List (String × Value)) :=
  match c with
  | .obj cm =>
    match lookupKey cm "resources" with
    | some (.obj res) =>
      match lookupKey res key with
      | some (.obj m) => some m
      | _ => none
    | _ => none
  | _ => none

/-- One step of the full-snapshot merge (extractors.go lines 119-131):
a fresh key is inserted; a duplicate key is comma-joined when both the
accumulated and the incoming value are strings, and otherwise left as the
accumulated value. -/
def mergeResourceEntry (acc : List (String × Value)) (k : String) (v : Value) :
    List (String × Value) :=
  match lookupKey acc k with
  | some existing =>
    match existing, v with
    | .str es, .str vs => setKey acc k (.str (es ++ "," ++ vs))
    | _, _ => acc
  | none => setKey acc k v

/-- Merge one container's requests (or limits) mapping into the running
mapping. -/
def mergeResourceMap (acc : List (String × Value)) (entries : List (String × Value)) :
    List (String × Value) :=
  entries.foldl (fun a p => mergeResourceEntry a p.1 p.2) acc

/-- The container loop of extractSchedulingInfo (extractors.go lines
107-147): fold every container's requests and limits into two running
mappings. -/
def mergeContainers (containers : List Value) :
    List (String × Value) × List (String × Value) :=
  containers.foldl
    (fun acc c =>
      let reqAcc :=
        match containerResourceMap c "requests" with
        | some m => mergeResourceMap acc.1 m
        | none => acc.1
      let limAcc :=
        match containerResourceMap c "limits" with
        | some m => mergeResourceMap acc.2 m
        | none => acc.2
      (reqAcc, limAcc))
    ([], [])

/-- NodeSelector field (extractors.go lines 82-84): present only when
found and non-empty. -/
def extractNodeSelector (doc : Value) (specPath : List String) :
    Option (List (String × String)) :=
  match nestedStringMap doc (specPath ++ ["nodeSelector"]) with
  | some m => if m.length > 0 then some m else none
  | none => none

/-- Scalar string fields (extractors.go lines 87-89 and similar): the
source assigns only when found and non-empty, starting from the zero
value "", so the result is the found string or "". -/
def extractStringField (doc : Value) (path : List String) : String :=
  (nestedString doc path).getD ""

/-- Affinity field (extractors.go lines 92-94): present only when found
and non-empty. -/
def extractAffinity (doc : Value) (specPath : List String) :
    Option (List (String × Value)) :=
  match nestedMap doc (specPath ++ ["affinity"]) with
  | some m => if m.length > 0 then some m else none
  | none => none

/-- Sequence fields (extractors.go lines 97-99, 102-104): the source
assigns only when found and non-empty, starting from a nil slice, so the
result is the found slice or the empty one (nil and empty coincide under
length tests). -/
def extractSliceField (doc : Value) (path : List String) : List Value :=
  (nestedSlice doc path).getD []

/-- Priority field (extractors.go lines 168-171): present whenever the
int64 key exists, converted through int32. -/
def extractPriority (doc : Value) (specPath : List String) : Option Int :=
  match nestedInt64 doc (specPath ++ ["priority"]) with
  | some n => some (toInt32 n)
  | none => none

/-- Boolean fields (extractors.go lines 184-196): recorded verbatim when
found, zero value false otherwise. -/
def extractBoolField (doc : Value) (path : List String) : Bool :=
  (nestedBool doc path).getD false

/-- The record extractSchedulingInfo builds before its final emptiness
check (extractors.go lines 78-196). -/
def buildSchedulingInfo (doc : Value) : SchedulingInfo :=
  let specPath := getPodSpecPath doc
  let merged :=
    match nestedSlice doc (specPath ++ ["containers"]) with
    | some containers => mergeContainers containers
    | none => ([], [])
  { nodeSelector := extractNodeSelector doc specPath
    nodeName := extractStringField doc (specPath ++ ["nodeName"])
    affinity := extractAffinity doc specPath
    tolerations := extractSliceField doc (specPath ++ ["tolerations"])
    topologySpreadConstraints :=
      extractSliceField doc (specPath ++ ["topologySpreadConstraints"])
    resourceRequests := if merged.1.length > 0 then some merged.1 else none
    resourceLimits := if merged.2.length > 0 then some merged.2 else none
    schedulerName := extractStringField doc (specPath ++ ["schedulerName"])
    priorityClassName := extractStringField doc (specPath ++ ["priorityClassName"])
    priority := extractPriority doc specPath
    preemptionPolicy := extractStringField doc (specPath ++ ["preemptionPolicy"])
    runtimeClassName := extractStringField doc (specPath ++ ["runtimeClassName"])
    hostNetwork := extractBoolField doc (specPath ++ ["hostNetwork"])
    hostPID := extractBoolField doc (specPath ++ ["hostPID"])
    hostIPC := extractBoolField doc (specPath ++ ["hostIPC"]) }

/-- The all-fields-empty test (extractors.go lines 199-204). -/
def schedulingIsEmpty (s : SchedulingInfo) : Bool :=
  s.nodeSelector.isNone && s.nodeName == "" && s.affinity.isNone
    && s.tolerations.length == 0 && s.topologySpreadConstraints.length == 0
    && s.resourceRequests.isNone && s.resourceLimits.isNone
    && s.schedulerName == "" && s.priorityClassName == "" && s.priority.isNone
    && s.preemptionPolicy == "" && s.runtimeClassName == ""
    && !s.hostNetwork && !s.hostPID && !s.hostIPC

/-- Embedding of `extractSchedulingInfo` (extractors.go lines 77-209):
`none` models the nil pointer returned when no scheduling information was
found. -/
def extractSchedulingInfo (doc : Value) : Option SchedulingInfo :=
  let s := buildSchedulingInfo doc
  if schedulingIsEmpty s then none else some s

/-- Embedding of the `ContainerResources` struct (types.go lines 10-15):
one container's name with its optional requests and limits mappings. -/
structure ContainerResources where
  name : String
  requests : Option (List (String × Value)) := none
  limits : Option (List (String × Value)) := none

/-- Embedding of the scheduling-subcommand fields of the `OutputItem`
struct (types.go lines 44-51).  NOTE: types.go declares the `Resources`
field with type `[]ContainerResources`, but the only assignment to it
(extractors.go line 262) stores the `map[string]interface{}` built by the
"resources" branch; the embedding gives the field the type of the value
the extractor actually assigns, and the mismatch against the declared
type is recorded by the theorem for the claim about this branch. -/
structure OutputItem where
  tolerations : List Value := []
  affinity : Option (List (String × Value)) := none
  nodeSelector : Option (List (String × String)) := none
  resources : Option (List (String × Value)) := none
  topologySpreadConstraints : List Value := []
  priority : Option (List (String × Value)) := none
  runtime : Option (List (String × Value)) := none

/-- Overwriting merge of one container's requests (or limits) mapping
used by the "resources" subcommand (extractors.go lines 242-244,
247-249): a later container's value replaces an earlier one. -/
def overwriteMap (acc : List (String × Value)) (entries : List (String × Value)) :
    List (String × Value) :=
  entries.foldl (fun a p => setKey a p.1 p.2) acc

/-- The container loop of the "resources" subcommand (extractors.go lines
230-252). -/
def overwriteContainers (containers : List Value) :
    List (String × Value) × List (String × Value) :=
  containers.foldl
    (fun acc c =>
      let reqAcc :=
        match containerResourceMap c "requests" with
        | some m => overwriteMap acc.1 m
        | none => acc.1
      let limAcc :=
        match containerResourceMap c "limits" with
        | some m => overwriteMap acc.2 m
        | none => acc.2
      (reqAcc, limAcc))
    ([], [])

/-- The `resources` mapping built by the "resources" subcommand
(extractors.go lines 228-260): the two cross-container mappings are
stored under the keys "requests" and "limits" when non-empty. -/
def resourcesSubcommandMap (doc : Value) (specPath : List String) :
    List (String × Value) :=
  match nestedSlice doc (specPath ++ ["containers"]) with
  | some containers =>
    let merged := overwriteContainers containers
    (if merged.1.length > 0 then [("requests", Value.obj merged.1)] else [])
      ++ (if merged.2.length > 0 then [("limits", Value.obj merged.2)] else [])
  | none => []

/-- The `priority` mapping built by the "priority" subcommand
(extractors.go lines 269-278). -/
def prioritySubcommandMap (doc : Value) (specPath : List String) :
    List (String × Value) :=
  let m : List (String × Value) := []
  let m :=
    match nestedString doc (specPath ++ ["priorityClassName"]) with
    | some s => if s == "" then m else setKey m "priorityClassName" (.str s)
    | none => m
  let m :=
    match nestedInt64 doc (specPath ++ ["priority"]) with
    | some n => setKey m "priority" (.int n)
    | none => m
  let m :=
    match nestedString doc (specPath ++ ["preemptionPolicy"]) with
    | some s => if s == "" then m else setKey m "preemptionPolicy" (.str s)
    | none => m
  m

/-- The `runtime` mapping built by the "runtime" subcommand
(extractors.go lines 283-295): booleans are bundled whenever the
underlying key exists, including the value false. -/
def runtimeSubcommandMap (doc : Value) (specPath : List String) :
    List (String × Value) :=
  let m : List (String × Value) := []
  let m :=
    match nestedString doc (specPath ++ ["runtimeClassName"]) with
    | some s => if s == "" then m else setKey m "runtimeClassName" (.str s)
    | none => m
  let m :=
    match nestedBool doc (specPath ++ ["hostNetwork"]) with
    | some b => setKey m "hostNetwork" (.bool b)
    | none => m
  let m :=
    match nestedBool doc (specPath ++ ["hostPID"]) with
    | some b => setKey m "hostPID" (.bool b)
    | none => m
  let m :=
    match nestedBool doc (specPath ++ ["hostIPC"]) with
    | some b => setKey m "hostIPC" (.bool b)
    | none => m
  m

/-- Embedding of `extractSchedulingSubcommand` (extractors.go lines
212-300): update the output item for the requested field group, leaving
it untouched when the group is empty or the subcommand is unknown. -/
def extractSchedulingSubcommand (doc : Value) (item : OutputItem)
    (subCommand : String) : OutputItem :=
  let specPath := getPodSpecPath doc
  if subCommand == "tolerations" then
    match nestedSlice doc (specPath ++ ["tolerations"]) with
    | some t => if t.length > 0 then { item with tolerations := t } else item
    | none => item
  else if subCommand == "affinity" then
    match nestedMap doc (specPath ++ ["affinity"]) with
    | some m => if m.length > 0 then { item with affinity := some m } else item
    | none => item
  else if subCommand == "nodeselector" then
    match nestedStringMap doc (specPath ++ ["nodeSelector"]) with
    | some m => if m.length > 0 then { item with nodeSelector := some m } else item
    | none => item
  else if subCommand == "resources" then
    let resources := resourcesSubcommandMap doc specPath
    if resources.length > 0 then { item with resources := some resources } else item
  else if subCommand == "topology" then
    match nestedSlice doc (specPath ++ ["topologySpreadConstraints"]) with
    | some t =>
      if t.length > 0 then { item with topologySpreadConstraints := t } else item
    | none => item
  else if subCommand == "priority" then
    let m := prioritySubcommandMap doc specPath
    if m.length > 0 then { item with priority := some m } else item
  else if subCommand == "runtime" then
    let m := runtimeSubcommandMap doc specPath
    if m.length > 0 then { item with runtime := some m } else item
  else item

/-
Derived notions and concrete documents used by the theorems below.
-/

/-- Whether a document value is a string (the test performed by the Go
type assertions `.(string)` in the merge of extractors.go lines 122-123,
136-137). -/
def Value.isStr : Value → Bool
  | .str _ => true
  | _ => false

/-- The two cross-container mappings extractSchedulingInfo derives from
the containers sequence (nothing when the sequence is absent). -/
def mergedContainerResources (doc : Value) (specPath : List String) :
    List (String × Value) × List (String × Value) :=
  match nestedSlice doc (specPath ++ ["containers"]) with
  | some containers => mergeContainers containers
  | none => ([], [])

/-- Absence of every scheduling field of a document under the presence
rules of the full-snapshot path: mapping-, sequence- and string-typed
fields are absent when missing, malformed or empty, the merged
requests/limits mappings are empty, the numeric priority key does not
exist (as an int64), and the host-namespace booleans read back as their
default false. -/
def allFieldsAbsentB (doc : Value) : Prop :=
  let p := getPodSpecPath doc
  extractNodeSelector doc p = none
    ∧ extractStringField doc (p ++ ["nodeName"]) = ""
    ∧ extractAffinity doc p = none
    ∧ extractSliceField doc (p ++ ["tolerations"]) = []
    ∧ extractSliceField doc (p ++ ["topologySpreadConstraints"]) = []
    ∧ (mergedContainerResources doc p).1 = []
    ∧ (mergedContainerResources doc p).2 = []
    ∧ extractStringField doc (p ++ ["schedulerName"]) = ""
    ∧ extractStringField doc (p ++ ["priorityClassName"]) = ""
    ∧ extractPriority doc p = none
    ∧ extractStringField doc (p ++ ["preemptionPolicy"]) = ""
    ∧ extractStringField doc (p ++ ["runtimeClassName"]) = ""
    ∧ extractBoolField doc (p ++ ["hostNetwork"]) = false
    ∧ extractBoolField doc (p ++ ["hostPID"]) = false
    ∧ extractBoolField doc (p ++ ["hostIPC"]) = false

/-- Absence of every scheduling field of a document under the presence
rules of the single-field path, where boolean and numeric keys count as
present exactly when they exist on the document (the single-field path
preserves presence for booleans, unlike the full-snapshot path). -/
def allFieldsAbsentC (doc : Value) : Prop :=
  let p := getPodSpecPath doc
  (∀ t, nestedSlice doc (p ++ ["tolerations"]) = some t → t = [])
    ∧ (∀ m, nestedMap doc (p ++ ["affinity"]) = some m → m = [])
    ∧ (∀ m, nestedStringMap doc (p ++ ["nodeSelector"]) = some m → m = [])
    ∧ (∀ cs, nestedSlice doc (p ++ ["containers"]) = some cs →
        ∀ c ∈ cs, (∀ m, containerResourceMap c "requests" = some m → m = [])
          ∧ (∀ m, containerResourceMap c "limits" = some m → m = []))
    ∧ (∀ t, nestedSlice doc (p ++ ["topologySpreadConstraints"]) = some t → t = [])
    ∧ (∀ s, nestedString doc (p ++ ["priorityClassName"]) = some s → s = "")
    ∧ nestedInt64 doc (p ++ ["priority"]) = none
    ∧ (∀ s, nestedString doc (p ++ ["preemptionPolicy"]) = some s → s = "")
    ∧ (∀ s, nestedString doc (p ++ ["runtimeClassName"]) = some s → s = "")
    ∧ nestedBool doc (p ++ ["hostNetwork"]) = none
    ∧ nestedBool doc (p ++ ["hostPID"]) = none
    ∧ nestedBool doc (p ++ ["hostIPC"]) = none

/-- Pod document with two containers that both declare the resource key
`k` in resources.requests, with string values `v1` and `v2`. -/
def twoContainerReqDoc (k v1 v2 : String) : Value :=
  .obj [("kind", .str "Pod"),
        ("spec", .obj [("containers", .arr
          [ .obj [("resources", .obj [("requests", .obj [(k, .str v1)])])],
            .obj [("resources", .obj [("requests", .obj [(k, .str v2)])])]])])]

/-- Pod document with two containers that both declare the resource key
`k` in resources.requests and resources.limits, with arbitrary document
values `v1` and `v2`. -/
def twoContainerValDoc (k : String) (v1 v2 : Value) : Value :=
  .obj [("kind", .str "Pod"),
        ("spec", .obj [("containers", .arr
          [ .obj [("resources", .obj [("requests", .obj [(k, v1)]),
                                      ("limits", .obj [(k, v1)])])],
            .obj [("resources", .obj [("requests", .obj [(k, v2)]),
                                      ("limits", .obj [(k, v2)])])]])])]

/-- Pod document with two named containers whose requests declare
different values for the cpu key. -/
def twoNamedContainerDoc : Value :=
  .obj [("kind", .str "Pod"),
        ("spec", .obj [("containers", .arr
          [ .obj [("name", .str "app"),
                  ("resources", .obj [("requests", .obj [("cpu", .str "1")])])],
            .obj [("name", .str "sidecar"),
                  ("resources", .obj [("requests", .obj [("cpu", .str "2")])])]])])]

/-- Deployment document carrying one toleration at the nested template
location spec.template.spec.tolerations. -/
def deployNestedTolerationsDoc (x : Value) : Value :=
  .obj [("kind", .str "Deployment"),
        ("spec", .obj [("template", .obj [("spec", .obj
          [("tolerations", .arr [x])])])])]

/-- Deployment document carrying the same toleration at the top-level
location spec.tolerations (the wrong location for this kind). -/
def deployTopTolerationsDoc (x : Value) : Value :=
  .obj [("kind", .str "Deployment"),
        ("spec", .obj [("tolerations", .arr [x])])]

/-- Pod document with a node name and a numeric priority key. -/
def priorityDoc (n : Int) : Value :=
  .obj [("kind", .str "Pod"),
        ("spec", .obj [("nodeName", .str "n1"), ("priority", .int n)])]

/-- Pod document with a node name and no priority key. -/
def noPriorityDoc : Value :=
  .obj [("kind", .str "Pod"), ("spec", .obj [("nodeName", .str "n1")])]

/-- The catalog entry for pods: plural name "pods", kind "Pod", short
alias "po". -/
def podsEntry : APIResource := ⟨"pods", "Pod", ["po"], true⟩

/-- A one-entry discovery catalog holding the pods entry in the core v1
group. -/
def podsCatalog : Option (List (Option APIResourceList)) :=
  some [some ⟨"v1", [podsEntry]⟩]

/-
Theorems.  Helper lemmas come first, then one theorem per claim.
-/

/-- Helper: the full-snapshot merge keeps both per-key mappings of the
two-container document when the two values are not both strings. -/
theorem mergeContainers_not_both_str (k : String) (v1 v2 : Value)
    (h : (v1.isStr && v2.isStr) = false) :
    mergeContainers
      [ .obj [("resources", .obj [("requests", .obj [(k, v1)]), ("limits", .obj [(k, v1)])])],
        .obj [("resources", .obj [("requests", .obj [(k, v2)]), ("limits", .obj [(k, v2)])])]]
      = ([(k, v1)], [(k, v1)]) := by
  simp [mergeContainers, containerResourceMap, mergeResourceMap, lookupKey,
    mergeResourceEntry, setKey]
  cases v1 <;> cases v2 <;> simp_all [Value.isStr]

/-- C1: the "resources" single-field extraction in the source does NOT
produce one entry per container: on a Pod with containers "app"
(requests cpu "1") and "sidecar" (requests cpu "2") it stores a single
two-level mapping in which the cpu key was merged across the containers
(the later container overwrote the earlier one) and the container names
do not appear at all.  types.go declares the target field `Resources` as
`[]ContainerResources` (one entry per container, with a name), so the
assignment at extractors.go line 262 does not even type-check against
the repository's own declaration; the table renderer likewise prints
`len(item.Resources)` as a container count.  The extractor branch, not
the claim, is the slip. -/
theorem c1_resources_subcommand_merges_across_containers :
    extractSchedulingSubcommand twoNamedContainerDoc {} "resources"
      = { resources := some [("requests", Value.obj [("cpu", Value.str "2")])] } := rfl

/-- C2: in the full-snapshot path, two containers declaring the same
requests key with string values v1 and v2 yield the comma-joined literal
string value v1 ++ "," ++ v2 for that key — in particular "1" and "2"
yield "1,2", not a numeric sum. -/
theorem c2_full_snapshot_comma_joins_duplicate_string_keys :
    (∀ k v1 v2 : String,
      extractSchedulingInfo (twoContainerReqDoc k v1 v2)
        = some { resourceRequests := some [(k, .str (v1 ++ "," ++ v2))] })
      ∧ extractSchedulingInfo (twoContainerReqDoc "cpu" "1" "2")
        = some { resourceRequests := some [("cpu", .str "1,2")] } := by
  refine ⟨fun k v1 v2 => ?_, rfl⟩
  simp [twoContainerReqDoc, extractSchedulingInfo, buildSchedulingInfo, schedulingIsEmpty,
    getPodSpecPath, getKind, podSpecPathForKind, nestedString, nestedStringMap, nestedMap,
    nestedSlice, nestedBool, nestedInt64, nestedField, lookupKey, allStringValues,
    extractNodeSelector, extractStringField, extractAffinity, extractSliceField,
    extractPriority, extractBoolField, mergeContainers, containerResourceMap,
    mergeResourceMap, mergeResourceEntry, setKey, templateKinds]

/-- C3: the comma-join of the full-snapshot merge fires only when the
accumulated value and the incoming value are both strings; otherwise the
mapping keeps the first container's value and the second container's
value is silently discarded (the extraction still succeeds, returning a
snapshot, never an error). -/
theorem c3_merge_keeps_first_value_when_not_both_strings
    (k : String) (v1 v2 : Value) (h : (v1.isStr && v2.isStr) = false) :
    extractSchedulingInfo (twoContainerValDoc k v1 v2)
      = some { resourceRequests := some [(k, v1)],
               resourceLimits := some [(k, v1)] } := by
  have hm := mergeContainers_not_both_str k v1 v2 h
  simp [twoContainerValDoc, extractSchedulingInfo, buildSchedulingInfo, schedulingIsEmpty,
    getPodSpecPath, getKind, podSpecPathForKind, nestedString, nestedStringMap, nestedMap,
    nestedSlice, nestedBool, nestedInt64, nestedField, lookupKey, allStringValues,
    extractNodeSelector, extractStringField, extractAffinity, extractSliceField,
    extractPriority, extractBoolField, templateKinds, hm]

/-- C3 witness: an int64 value 1 and the string "2" on the same key keep
the int64 value 1 from the first container, for both requests and
limits. -/
theorem c3_merge_keeps_first_value_when_not_both_strings_witness :
    ((Value.int 1).isStr && (Value.str "2").isStr) = false
      ∧ extractSchedulingInfo (twoContainerValDoc "cpu" (.int 1) (.str "2"))
        = some { resourceRequests := some [("cpu", .int 1)],
                 resourceLimits := some [("cpu", .int 1)] } :=
  ⟨rfl, c3_merge_keeps_first_value_when_not_both_strings "cpu" (.int 1) (.str "2") rfl⟩

/-- C7: getGVR signals catalogUnavailable exactly when discovery errored
and returned no lists at all; an obtained-but-empty catalog yields
notFound for every input; and a partial discovery result (error plus
usable lists) resolves exactly as an error-free one. -/
theorem c7_resolve_error_policy :
    (∀ (input : String) (discoveryFailed : Bool)
        (lists : Option (List (Option APIResourceList))),
      getGVR input discoveryFailed lists = .error .catalogUnavailable
        ↔ discoveryFailed = true ∧ lists = none)
      ∧ (∀ (input : String) (discoveryFailed : Bool),
          getGVR input discoveryFailed (some []) = .error (.notFound input))
      ∧ (∀ (input : String) (ls : List (Option APIResourceList)),
          getGVR input true (some ls) = getGVR input false (some ls)) := by
  refine ⟨fun input discoveryFailed lists => ?_,
    fun input discoveryFailed => ?_, fun input ls => rfl⟩
  · unfold getGVR
    cases discoveryFailed <;> cases lists
    · simp [findInLists]
    · rename_i ls
      cases hm : findInLists (strToLower input) ls <;> simp [hm]
    · simp
    · rename_i ls
      cases hm : findInLists (strToLower input) ls <;> simp [hm]
  · cases discoveryFailed <;> rfl

/-- C8: the spec-root dispatch returns ["spec"] for kind "Pod", the
nested ["spec", "template", "spec"] exactly for the six template kinds,
and ["spec"] for every other kind; consequently a Deployment toleration
is extracted from spec.template.spec.tolerations, while the same data at
top-level spec.tolerations leaves the snapshot without tolerations (here:
without any scheduling information at all). -/
theorem c8_pod_spec_path_dispatch :
    podSpecPathForKind "Pod" = ["spec"]
      ∧ podSpecPathForKind "Deployment" = ["spec", "template", "spec"]
      ∧ podSpecPathForKind "StatefulSet" = ["spec", "template", "spec"]
      ∧ podSpecPathForKind "DaemonSet" = ["spec", "template", "spec"]
      ∧ podSpecPathForKind "ReplicaSet" = ["spec", "template", "spec"]
      ∧ podSpecPathForKind "Job" = ["spec", "template", "spec"]
      ∧ podSpecPathForKind "CronJob" = ["spec", "template", "spec"]
      ∧ (∀ kind : String,
          kind ∉ (["Pod"] ++ templateKinds) → podSpecPathForKind kind = ["spec"])
      ∧ (∀ x : Value, extractSchedulingInfo (deployNestedTolerationsDoc x)
          = some { tolerations := [x] })
      ∧ (∀ x : Value, extractSchedulingInfo (deployTopTolerationsDoc x) = none) := by
  refine ⟨rfl, rfl, rfl, rfl, rfl, rfl, rfl, fun kind h => ?_, fun x => ?_, fun x => ?_⟩
  · simp only [templateKinds, List.cons_append, List.nil_append, List.mem_cons,
      List.not_mem_nil, or_false, not_or] at h
    obtain ⟨h1, h2, h3, h4, h5, h6, h7⟩ := h
    simp [podSpecPathForKind, templateKinds, h1, h2, h3, h4, h5, h6, h7]
  · simp [deployNestedTolerationsDoc, extractSchedulingInfo, buildSchedulingInfo,
      schedulingIsEmpty, getPodSpecPath, getKind, podSpecPathForKind, nestedString,
      nestedStringMap, nestedMap, nestedSlice, nestedBool, nestedInt64, nestedField,
      lookupKey, allStringValues, extractNodeSelector, extractStringField, extractAffinity,
      extractSliceField, extractPriority, extractBoolField, mergeContainers, templateKinds]
  · simp [deployTopTolerationsDoc, extractSchedulingInfo, buildSchedulingInfo,
      schedulingIsEmpty, getPodSpecPath, getKind, podSpecPathForKind, nestedString,
      nestedStringMap, nestedMap, nestedSlice, nestedBool, nestedInt64, nestedField,
      lookupKey, allStringValues, extractNodeSelector, extractStringField, extractAffinity,
      extractSliceField, extractPriority, extractBoolField, mergeContainers, templateKinds]

/-- C8 witness: an unlisted kind falls back to ["spec"], and the
Deployment toleration examples evaluate as the theorem states at the
concrete toleration value "t". -/
theorem c8_pod_spec_path_dispatch_witness :
    podSpecPathForKind "Service" = ["spec"]
      ∧ extractSchedulingInfo (deployNestedTolerationsDoc (Value.str "t"))
        = some { tolerations := [Value.str "t"] }
      ∧ extractSchedulingInfo (deployTopTolerationsDoc (Value.str "t")) = none :=
  ⟨c8_pod_spec_path_dispatch.2.2.2.2.2.2.2.1 "Service" (by decide),
   c8_pod_spec_path_dispatch.2.2.2.2.2.2.2.2.1 (Value.str "t"),
   c8_pod_spec_path_dispatch.2.2.2.2.2.2.2.2.2 (Value.str "t")⟩

/-- C9: the numeric priority field of the full snapshot is present
whenever the int64 key exists, for every value including zero (via Go's
int32 conversion), and absent when the key is missing; the two documents
differing only in a priority key of 0 are distinguishable. -/
theorem c9_priority_present_iff_key_exists :
    (∀ n : Int, extractSchedulingInfo (priorityDoc n)
        = some { nodeName := "n1", priority := some (toInt32 n) })
      ∧ extractSchedulingInfo (priorityDoc 0)
        = some { nodeName := "n1", priority := some 0 }
      ∧ extractSchedulingInfo noPriorityDoc = some { nodeName := "n1" } := by
  refine ⟨fun n => ?_, rfl, rfl⟩
  simp [priorityDoc, extractSchedulingInfo, buildSchedulingInfo, schedulingIsEmpty,
    getPodSpecPath, getKind, podSpecPathForKind, nestedString, nestedStringMap, nestedMap,
    nestedSlice, nestedBool, nestedInt64, nestedField, lookupKey, allStringValues,
    extractNodeSelector, extractStringField, extractAffinity, extractSliceField,
    extractPriority, extractBoolField, mergeContainers, templateKinds]

/-- Helper: the outer catalog scan of a concatenation skips a prefix in
which nothing matches. -/
theorem findInLists_append_of_none (i : String) (xs ys : List (Option APIResourceList))
    (h : findInLists i xs = none) :
    findInLists i (xs ++ ys) = findInLists i ys := by
  induction xs with
  | nil => rfl
  | cons x rest ih =>
    cases x with
    | none =>
      rw [List.cons_append]
      exact ih (by simpa [findInLists] using h)
    | some l =>
      rw [List.cons_append]
      simp only [findInLists] at h ⊢
      cases hr : findInResources i l.groupVersion l.apiResources with
      | some r => rw [hr] at h; exact absurd h (by simp)
      | none => rw [hr] at h; exact ih h

/-- C5: first-match policy of getGVR — whenever no entry of the catalog
prefix matches and the next list opens with a matching, parseable entry,
resolution returns that entry's coordinate, no matter what entries (for
example, the same plural name under another group) follow in the same
list or in later lists; being a pure function of its inputs, repeated
calls agree by construction. -/
theorem c5_resolve_first_match_policy (input : String)
    (pre post : List (Option APIResourceList)) (gvs : String)
    (r : APIResource) (rest : List APIResource) (gv : GroupVersion)
    (hpre : findInLists (strToLower input) pre = none)
    (hslash : containsChar r.name '/' = false)
    (hmatch : matchesResource (strToLower input) r = true)
    (hparse : parseGroupVersion gvs = some gv) :
    getGVR input false (some (pre ++ some ⟨gvs, r :: rest⟩ :: post))
      = .ok (⟨gv.group, gv.version, r.name⟩, r.namespaced) := by
  unfold getGVR
  simp only [Bool.false_and, Bool.and_self, if_false, Option.getD_some, Option.isNone_some]
  rw [findInLists_append_of_none _ _ _ hpre]
  simp [findInLists, findInResources, hslash, hmatch, hparse]

/-- C5 witness: of two catalog entries with the same plural name "pods"
in the different groups g1 and g2, resolution returns the one appearing
first in the supplied catalog sequence. -/
theorem c5_resolve_first_match_policy_witness :
    getGVR "pods" false
      (some [some ⟨"g1/v1", [⟨"pods", "Pod", [], true⟩]⟩,
             some ⟨"g2/v1", [⟨"pods", "Pod", [], true⟩]⟩])
      = .ok (⟨"g1", "v1", "pods"⟩, true) :=
  c5_resolve_first_match_policy "pods" [] [some ⟨"g2/v1", [⟨"pods", "Pod", [], true⟩]⟩]
    "g1/v1" ⟨"pods", "Pod", [], true⟩ [] ⟨"g1", "v1"⟩ rfl rfl rfl rfl

/-- C6: the match predicate — an entry whose name contains a path
separator is skipped by the scan outright, every other entry matches
precisely when the input equals the plural name, the kind, or a short
alias case-insensitively, and the five spellings "Pods", "pods", "PODS",
"Pod", "po" all resolve to the coordinate of the
{pluralName "pods", kind "Pod", shortAliases ["po"]} entry. -/
theorem c6_resolve_match_predicate :
    (∀ (i gvs : String) (r : APIResource) (rest : List APIResource),
        containsChar r.name '/' = true →
        findInResources i gvs (r :: rest) = findInResources i gvs rest)
      ∧ (∀ (input : String) (r : APIResource),
          matchesResource (strToLower input) r = true
            ↔ (strToLower r.name = strToLower input
                ∨ strToLower r.kind = strToLower input
                ∨ ∃ sn ∈ r.shortNames, strToLower sn = strToLower input))
      ∧ getGVR "Pods" false podsCatalog = .ok (⟨"", "v1", "pods"⟩, true)
      ∧ getGVR "pods" false podsCatalog = .ok (⟨"", "v1", "pods"⟩, true)
      ∧ getGVR "PODS" false podsCatalog = .ok (⟨"", "v1", "pods"⟩, true)
      ∧ getGVR "Pod" false podsCatalog = .ok (⟨"", "v1", "pods"⟩, true)
      ∧ getGVR "po" false podsCatalog = .ok (⟨"", "v1", "pods"⟩, true) := by
  refine ⟨fun i gvs r rest h => ?_, fun input r => ?_, rfl, rfl, rfl, rfl, rfl⟩
  · simp [findInResources, h]
  · simp [matchesResource, List.any_eq_true, beq_iff_eq, or_assoc]

/-- C6 witness: the sub-resource entry "pods/log" is skipped by the scan
even for the input "log" that equals its short alias. -/
theorem c6_resolve_match_predicate_witness :
    findInResources "log" "v1" [⟨"pods/log", "Pod", ["log"], true⟩, podsEntry]
      = findInResources "log" "v1" [podsEntry] :=
  c6_resolve_match_predicate.1 "log" "v1" ⟨"pods/log", "Pod", ["log"], true⟩ [podsEntry] rfl

/-- Helper: the final emptiness check of extractSchedulingInfo tests
exactly the absence of every field the snapshot was built from. -/
theorem schedulingIsEmpty_iff_allFieldsAbsentB (doc : Value) :
    schedulingIsEmpty (buildSchedulingInfo doc) = true ↔ allFieldsAbsentB doc := by
  simp [schedulingIsEmpty, buildSchedulingInfo, allFieldsAbsentB, mergedContainerResources,
    Option.isNone_iff_eq_none, List.length_eq_zero, Bool.not_eq_true', and_assoc]

/-- Helper: the full-snapshot extraction collapses to no snapshot exactly
when every field is absent. -/
theorem extractSchedulingInfo_eq_none_iff (doc : Value) :
    extractSchedulingInfo doc = none ↔ allFieldsAbsentB doc := by
  rw [← schedulingIsEmpty_iff_allFieldsAbsentB]
  simp only [extractSchedulingInfo]
  cases hc : schedulingIsEmpty (buildSchedulingInfo doc) <;> simp [hc]

/-- Helper: a fold whose step fixes every element of the list returns its
initial accumulator. -/
theorem foldlFixed {α β : Type} (l : List α) (f : β → α → β) (acc : β)
    (h : ∀ a ∈ l, ∀ b, f b a = b) : l.foldl f acc = acc := by
  induction l generalizing acc with
  | nil => rfl
  | cons x xs ih =>
    rw [List.foldl_cons, h x (by simp)]
    exact ih acc fun a ha b => h a (by simp [ha]) b

/-- Helper: when no container carries a non-empty requests or limits
mapping, the overwriting merge of the "resources" subcommand produces two
empty mappings. -/
theorem overwriteContainersEmpty (cs : List Value)
    (h : ∀ c ∈ cs, (∀ m, containerResourceMap c "requests" = some m → m = [])
      ∧ (∀ m, containerResourceMap c "limits" = some m → m = [])) :
    overwriteContainers cs = ([], []) := by
  apply foldlFixed
  intro c hc b
  obtain ⟨hreq, hlim⟩ := h c hc
  have h1 : (match containerResourceMap c "requests" with
      | some m => overwriteMap b.1 m
      | none => b.1) = b.1 := by
    cases hr : containerResourceMap c "requests" with
    | none => rfl
    | some m => simp [hreq m hr, overwriteMap]
  have h2 : (match containerResourceMap c "limits" with
      | some m => overwriteMap b.2 m
      | none => b.2) = b.2 := by
    cases hr : containerResourceMap c "limits" with
    | none => rfl
    | some m => simp [hlim m hr, overwriteMap]
  simp only [h1, h2]

/-- Helper: a document with every field absent under the single-field
presence rules leaves the output item untouched for every subcommand. -/
theorem extractSchedulingSubcommand_unchanged (doc : Value) (h : allFieldsAbsentC doc) :
    ∀ subCommand item, extractSchedulingSubcommand doc item subCommand = item := by
  intro sub item
  obtain ⟨htol, haff, hns, hcont, htop, hpcn, hprio, hpre, hrcn, hhn, hhp, hhi⟩ := h
  unfold extractSchedulingSubcommand
  split_ifs
  · cases ht : nestedSlice doc (getPodSpecPath doc ++ ["tolerations"]) with
    | none => simp [ht]
    | some t => simp [ht, htol t ht]
  · cases ha : nestedMap doc (getPodSpecPath doc ++ ["affinity"]) with
    | none => simp [ha]
    | some m => simp [ha, haff m ha]
  · cases hn : nestedStringMap doc (getPodSpecPath doc ++ ["nodeSelector"]) with
    | none => simp [hn]
    | some m => simp [hn, hns m hn]
  · have hres : resourcesSubcommandMap doc (getPodSpecPath doc) = [] := by
      unfold resourcesSubcommandMap
      cases hc : nestedSlice doc (getPodSpecPath doc ++ ["containers"]) with
      | none => rfl
      | some cs => simp [overwriteContainersEmpty cs (hcont cs hc)]
    simp [hres]
  · cases ht : nestedSlice doc (getPodSpecPath doc ++ ["topologySpreadConstraints"]) with
    | none => simp [ht]
    | some t => simp [ht, htop t ht]
  · have hm : prioritySubcommandMap doc (getPodSpecPath doc) = [] := by
      unfold prioritySubcommandMap
      cases h1 : nestedString doc (getPodSpecPath doc ++ ["priorityClassName"]) with
      | none =>
        cases h2 : nestedString doc (getPodSpecPath doc ++ ["preemptionPolicy"]) with
        | none => simp [hprio]
        | some s => simp [hprio, hpre s h2]
      | some s =>
        cases h2 : nestedString doc (getPodSpecPath doc ++ ["preemptionPolicy"]) with
        | none => simp [hprio, hpcn s h1]
        | some s2 => simp [hprio, hpcn s h1, hpre s2 h2]
    simp [hm]
  · have hm : runtimeSubcommandMap doc (getPodSpecPath doc) = [] := by
      unfold runtimeSubcommandMap
      cases h1 : nestedString doc (getPodSpecPath doc ++ ["runtimeClassName"]) with
      | none => simp [hhn, hhp, hhi]
      | some s => simp [hhn, hhp, hhi, hrcn s h1]
    simp [hm]
  · rfl

/-- C4: the full-snapshot extraction returns no snapshot exactly when
every one of the snapshot's fields is absent under the full-snapshot
presence rules (for the booleans: reads back false), and the all-absent
collapse also holds on the single-field path — under that path's
presence rules, which treat a boolean or numeric key as present exactly
when it exists, every subcommand leaves the output item untouched. -/
theorem c4_all_absent_collapse (doc : Value) :
    (extractSchedulingInfo doc = none ↔ allFieldsAbsentB doc)
      ∧ (allFieldsAbsentC doc →
          ∀ subCommand item, extractSchedulingSubcommand doc item subCommand = item) :=
  ⟨extractSchedulingInfo_eq_none_iff doc,
   fun h sub item => extractSchedulingSubcommand_unchanged doc h sub item⟩

/-- C4 witness: a Pod document whose only scheduling-relevant key is
hostNetwork with value false is all-absent under the full-snapshot rules
and collapses to no snapshot, and an empty document is all-absent under
the single-field rules and leaves the output item untouched for the
"runtime" subcommand. -/
theorem c4_all_absent_collapse_witness :
    extractSchedulingInfo
        (Value.obj [("kind", Value.str "Pod"),
                    ("spec", Value.obj [("hostNetwork", Value.bool false)])]) = none
      ∧ extractSchedulingSubcommand (Value.obj []) {} "runtime" = {} :=
  ⟨(c4_all_absent_collapse _).1.mpr
      ⟨rfl, rfl, rfl, rfl, rfl, rfl, rfl, rfl, rfl, rfl, rfl, rfl, rfl, rfl, rfl⟩,
   (c4_all_absent_collapse (Value.obj [])).2
      (by simp [allFieldsAbsentC, getPodSpecPath, getKind, podSpecPathForKind,
        templateKinds, nestedString, nestedStringMap, nestedMap, nestedSlice,
        nestedBool, nestedInt64, nestedField, lookupKey])
      "runtime" {}⟩

/-- C10: a declared-but-empty nodeSelector mapping under the spec root
extracts identically to a document lacking the nodeSelector key
entirely — for every kind whose spec root is the top-level "spec" and
every remaining content of the spec mapping, the two snapshots are the
same, with the nodeSelector field absent in both. -/
theorem c10_empty_node_selector_equals_missing (kind : String)
    (rest : List (String × Value))
    (hpath : podSpecPathForKind kind = ["spec"])
    (hns : lookupKey rest "nodeSelector" = none) :
    extractSchedulingInfo
        (.obj [("kind", .str kind), ("spec", .obj (("nodeSelector", .obj []) :: rest))])
      = extractSchedulingInfo (.obj [("kind", .str kind), ("spec", .obj rest)]) := by
  have hpA : getPodSpecPath
      (.obj [("kind", .str kind), ("spec", .obj (("nodeSelector", .obj []) :: rest))])
      = ["spec"] := by
    simp [getPodSpecPath, getKind, nestedString, nestedField, lookupKey, hpath]
  have hpB : getPodSpecPath (.obj [("kind", .str kind), ("spec", .obj rest)])
      = ["spec"] := by
    simp [getPodSpecPath, getKind, nestedString, nestedField, lookupKey, hpath]
  have e : buildSchedulingInfo
        (.obj [("kind", .str kind), ("spec", .obj (("nodeSelector", .obj []) :: rest))])
      = buildSchedulingInfo (.obj [("kind", .str kind), ("spec", .obj rest)]) := by
    unfold buildSchedulingInfo
    rw [hpA, hpB]
    simp [extractNodeSelector, extractStringField, extractAffinity, extractSliceField,
      extractPriority, extractBoolField, nestedString, nestedStringMap, nestedMap,
      nestedSlice, nestedInt64, nestedBool, nestedField, lookupKey, allStringValues, hns]
  unfold extractSchedulingInfo
  rw [e]

/-- C10 witness: a Pod with an empty nodeSelector next to a node name
extracts the same snapshot as the Pod without the nodeSelector key. -/
theorem c10_empty_node_selector_equals_missing_witness :
    extractSchedulingInfo
        (.obj [("kind", .str "Pod"),
               ("spec", .obj [("nodeSelector", .obj []), ("nodeName", .str "n1")])])
      = extractSchedulingInfo
          (.obj [("kind", .str "Pod"), ("spec", .obj [("nodeName", .str "n1")])]) :=
  c10_empty_node_selector_equals_missing "Pod" [("nodeName", .str "n1")] rfl rfl

end GetInfo
